import Mathlib

/-!
Shallow embedding of the ecs_composex source files under verification:

  * src/ecs_composex/compose/compose_volumes/services_helpers.py
    (volume string parsing, volume/service matching, tmpfs handling),
  * src/ecs_composex/kinesis/kinesis_stack.py
    (stream lookup and resource classification in XStack.__init__),
  * src/ecs_composex/cluster/cluster_template.py
    (the generate_cluster_template entry point and its module bindings).

Python dictionaries with a known key set are embedded as structures whose
Option-typed fields model key presence (none = key absent).  The helper
keyisset(key, d) from compose_x_common means: d is a dict, the key is
present, and its value is truthy; for string values truthiness is
non-emptiness, for dict values non-emptiness of the dict, for int values
being non-zero.  Python object references between services and volumes are
modelled by name (the code only ever compares and stores them; the
bidirectional link is recoverable from the names).  Exceptions are
modelled with Except over an explicit error type.
-/

/-- Python exceptions raised by the embedded code.  For exceptions raised
with several arguments, only the first (message) argument is modelled, and
the quoting Python would apply inside messages is reproduced literally. -/
inductive PyErr where
  | valueError (msg : String)
  | keyError (msg : String)
  | lookupError (msg : String)
  | nameError (msg : String)
  deriving DecidableEq

deriving instance DecidableEq for Except

/-- The single-quote character, used when reproducing Python repr output. -/
def single_quote : String := String.singleton (Char.ofNat 39)

/-- Python str whitespace, as matched by the regex class backslash-s (and
complemented by backslash-S) when the pattern is a str: the six ASCII
whitespace characters plus the Unicode whitespace code points. -/
def isPyWhitespace (c : Char) : Bool :=
  c = ' ' || c = '\t' || c = '\n' || c = '\r' || c = Char.ofNat 0x0b || c = Char.ofNat 0x0c ||
  (Char.ofNat 0x1c ≤ c && c ≤ Char.ofNat 0x1f) || c = Char.ofNat 0x85 || c = Char.ofNat 0xa0 ||
  c = Char.ofNat 0x1680 || (Char.ofNat 0x2000 ≤ c && c ≤ Char.ofNat 0x200a) ||
  c = Char.ofNat 0x2028 || c = Char.ofNat 0x2029 || c = Char.ofNat 0x202f ||
  c = Char.ofNat 0x205f || c = Char.ofNat 0x3000

/-- Character class of the source group: any non-colon character (the
first character of the group is additionally constrained to non-whitespace,
checked separately). -/
def not_colon (c : Char) : Bool := c ≠ ':'

/-- Character class of the target group body: anything but colon and
newline. -/
def target_char (c : Char) : Bool := c ≠ ':' && c ≠ '\n'

/-- The optional mode group of the volume pattern: a literal colon
followed by the alternation ro | rw.  The alternation tries "ro" first,
then "rw"; as in the Python regex, nothing anchors the end of the input,
so trailing characters after a successful alternative are ignored. -/
def modeOf (rest : List Char) : Option String :=
  match rest with
  | ':' :: 'r' :: 'o' :: _ => some "ro"
  | ':' :: 'r' :: 'w' :: _ => some "rw"
  | _ => none

/-- The mandatory target group of the volume pattern together with the
optional mode group: a literal slash, then one or more target characters
(greedy), then the optional mode.  Returns the captured target characters
and the mode group.  Greedy matching of a negated single-character class
followed by the class complement never backtracks usefully, so takeWhile
and dropWhile model the regex engine exactly here. -/
def matchTargetMode (l : List Char) : Option (List Char × Option String) :=
  match l with
  | [] => none
  | c :: rest =>
    if c = '/' then
      let run := List.takeWhile target_char rest
      let rest2 := List.dropWhile target_char rest
      if run.isEmpty then none
      else some ('/' :: run, modeOf rest2)
    else none

/-- Anchored match of the volume pattern
(source group, colon) optional, target group, (colon, ro or rw) optional
against the start of the input, with Python re backtracking semantics:
the optional source group is tried first; the group is a non-whitespace
character followed by one or more non-colon characters, then a literal
colon.  Because the non-colon run cannot absorb a colon, the only
backtracking point is dropping the optional source group entirely, which
happens exactly when the target group fails after the source group
matched.  Returns (source group, target group, mode group). -/
def pathMatchList (l : List Char) : Option (Option (List Char) × List Char × Option String) :=
  match l with
  | [] => none
  | c0 :: rest =>
    let noSource := (matchTargetMode (c0 :: rest)).map
      (fun tm => ((none : Option (List Char)), tm))
    if isPyWhitespace c0 then noSource
    else
      let run := List.takeWhile not_colon rest
      let rest2 := List.dropWhile not_colon rest
      match rest2 with
      | [] => noSource
      | c :: rest3 =>
        if c = ':' then
          if run.isEmpty then noSource
          else
            match matchTargetMode rest3 with
            | some tm => some (some (c0 :: run), tm)
            | none => noSource
        else noSource

/-- Value held under a tmpfs key of a service volume dict: either a
nested dict (with an optional size key, and possibly other keys), or a
non-dict value of which only the truthiness matters. -/
inductive TmpfsV where
  | dict (size? : Option Nat) (has_other_keys : Bool)
  | nonDict (truthy : Bool)
  deriving DecidableEq

/-- Python truthiness of a tmpfs value: a dict is truthy iff non-empty,
for non-dict values the modelled truthiness is taken directly. -/
def TmpfsV.truthy : TmpfsV → Bool
  | TmpfsV.dict size? other => size?.isSome || other
  | TmpfsV.nonDict t => t

/-- ComposeVolume (class declared in compose_volumes/__init__.py, outside
src/).  Modelled from the spec: a named, optionally auto-generated volume
declaration holding the set of services attached to it; services are
recorded by name. -/
structure ComposeVolume where
  name : String
  services : List String := []
  autogenerated : Bool := false
  deriving DecidableEq

/-- A volume-attachment record (the vol_config / volume_config dicts of
services_helpers.py).  Option fields model key presence; the volume key
holds either None (host bind) or a reference to a ComposeVolume, modelled
by its name.  The type and tmpfs keys can be merged in by the dict-form
handler. -/
structure VolConfig where
  read_only : Bool := false
  target? : Option String := none
  source? : Option String := none
  volume? : Option (Option String) := none
  type? : Option String := none
  tmpfs? : Option TmpfsV := none
  deriving DecidableEq

/-- A container-level tmpfs mount spec appended to service.tmpfses. -/
structure TmpfsDef where
  ContainerPath : String
  Size? : Option Nat := none
  deriving DecidableEq

/-- Dict form of a service volume declaration (the keys read by
services_helpers.py). -/
structure DictVol where
  type? : Option String := none
  tmpfs? : Option TmpfsV := none
  target? : Option String := none
  source? : Option String := none
  read_only? : Option Bool := none
  deriving DecidableEq

/-- One entry of service.definition["volumes"]: a compact string or a
dict. -/
inductive SVolume where
  | str (s : String)
  | dict (d : DictVol)
  deriving DecidableEq

/-- ComposeService (class declared outside src/).  Modelled from the
spec: a named service holding its resolved volume-attachment records and
tmpfs mount specs; definition_volumes is the value of
service.definition["volumes"] (empty when the key is absent or empty,
which keyisset treats identically). -/
structure ComposeService where
  name : String
  definition_volumes : List SVolume := []
  volumes : List VolConfig := []
  tmpfses : List TmpfsDef := []
  deriving DecidableEq

/-- keyisset("source", vol_config): the source key is present and its
string value is non-empty. -/
def keyissetSource (vc : VolConfig) : Bool :=
  match vc.source? with
  | some s => !s.data.isEmpty
  | none => false

/-- keyisset("volume", volume) where volume is a ComposeVolume object:
keyisset first checks isinstance(y, dict), and a ComposeVolume instance
is not a dict, so this is False for every volume. -/
def keyisset_volume_on_compose_volume (_v : ComposeVolume) : Bool := false

/-- str.startswith("/") on the value of the source key. -/
def startswith_slash (s : String) : Bool :=
  match s.data with
  | c :: _ => c = '/'
  | [] => false

/-- vol_config["source"].startswith("/"), evaluated only after keyisset
has established that the source key is present. -/
def source_startswith_slash (vc : VolConfig) : Bool :=
  match vc.source? with
  | some s => startswith_slash s
  | none => false

/-- Python str() of a list of strings, as interpolated into the
LookupError message: bracketed, comma-separated, each element in single
quotes. -/
def pyReprStrList (names : List String) : String :=
  "[" ++ String.intercalate ", " (names.map (fun n => single_quote ++ n ++ single_quote)) ++ "]"

/-- The LookupError message of match_volumes_services_config. -/
def lookup_error_msg (src : String) (volumes : List ComposeVolume) : String :=
  "Volume " ++ src ++ " was not found in " ++ pyReprStrList (volumes.map (fun v => v.name))

/-- The for-loop of match_volumes_services_config: scan the candidate
volumes in order; an iteration first evaluates the continue guard
(not keyisset("source", vol_config) and not keyisset("volume", volume)),
then compares volume.name to vol_config["source"].  The comparison is
reached only when keyisset holds, hence the source key is present there
and getD never supplies its default.  On a match, the service name is
appended to that volume's services and the scan stops.  Returns the
updated volume list and the matched volume's name, or none when no
iteration matched. -/
def match_loop (service_name : String) (vc : VolConfig) :
    List ComposeVolume → Option (List ComposeVolume × String)
  | [] => none
  | v :: rest =>
    if !(keyissetSource vc) && !(keyisset_volume_on_compose_volume v) then
      (match_loop service_name vc rest).map (fun p => (v :: p.1, p.2))
    else if v.name = vc.source?.getD "" then
      some ({ v with services := v.services ++ [service_name] } :: rest, v.name)
    else
      (match_loop service_name vc rest).map (fun p => (v :: p.1, p.2))

/-- match_volumes_services_config(service, vol_config, volumes).
Branch 1: a source that is set and starts with "/" is a host bind; the
volume key is set to None and the record is appended to service.volumes.
Otherwise the candidate volumes are scanned; on a match the record (with
its volume key set to the matched volume) is appended to service.volumes.
When the scan finds nothing, the final raise interpolates
vol_config["source"] into its message, which raises KeyError when the
source key is absent, and otherwise raises the LookupError.  Returns the
updated service, the final attachment record, and the updated volume
list. -/
def match_volumes_services_config (service : ComposeService) (vc : VolConfig)
    (volumes : List ComposeVolume) :
    Except PyErr (ComposeService × VolConfig × List ComposeVolume) :=
  if keyissetSource vc && source_startswith_slash vc then
    let vc2 := { vc with volume? := some none }
    Except.ok ({ service with volumes := service.volumes ++ [vc2] }, vc2, volumes)
  else
    match match_loop service.name vc volumes with
    | some (volumes2, matchedName) =>
      let vc2 := { vc with volume? := some (some matchedName) }
      Except.ok ({ service with volumes := service.volumes ++ [vc2] }, vc2, volumes2)
    | none =>
      match vc.source? with
      | none => Except.error (PyErr.keyError "source")
      | some src => Except.error (PyErr.lookupError (lookup_error_msg src volumes))

/-- str(uuid4().hex)[:6]: the first six characters of the 32-character
lowercase hexadecimal digest of a fresh UUID.  The digest itself is the
explicit uuid_hex argument (the single source of nondeterminism of
services_helpers.py). -/
def gen_volume_name (uuid_hex : String) : String := String.mk (uuid_hex.data.take 6)

/-- Lines 52-74 of handle_volume_str_config: build volume_config from the
pattern match.  On no match: ValueError (the group("target") test of line
57 can never fire on a successful match, the target group being
mandatory).  A matched source group is copied into the record; an absent
source group creates a fresh autogenerated ComposeVolume named by
gen_volume_name, appends it to the working volume list and records it in
the source and volume keys.  A mode group equal to "ro" sets read_only.
Returns the record, the (possibly extended) volume list, and whether a
UUID was consumed. -/
def handle_volume_str_parse (uuid_hex : String) (config : String)
    (volumes : List ComposeVolume) :
    Except PyErr (VolConfig × List ComposeVolume × Bool) :=
  match pathMatchList config.data with
  | none =>
    Except.error (PyErr.valueError
      ("Volume syntax " ++ config ++ " is invalid. Must follow the pattern"))
  | some (sourceGroup, targetMode) =>
    let vc0 : VolConfig := { read_only := false, target? := some (String.mk targetMode.1) }
    match sourceGroup with
    | some sourceChars =>
      let vc1 := { vc0 with source? := some (String.mk sourceChars) }
      let vc2 := if targetMode.2 = some "ro" then { vc1 with read_only := true } else vc1
      Except.ok (vc2, volumes, false)
    | none =>
      let new_volume : ComposeVolume :=
        { name := gen_volume_name uuid_hex, services := [], autogenerated := true }
      let volumes2 := volumes ++ [new_volume]
      let vc1 := { vc0 with source? := some new_volume.name, volume? := some (some new_volume.name) }
      let vc2 := if targetMode.2 = some "ro" then { vc1 with read_only := true } else vc1
      Except.ok (vc2, volumes2, true)

/-- handle_volume_str_config(service, config, volumes): parse the compact
string form, then hand the record to match_volumes_services_config. -/
def handle_volume_str_config (uuid_hex : String) (service : ComposeService)
    (config : String) (volumes : List ComposeVolume) :
    Except PyErr (ComposeService × List ComposeVolume × Bool) :=
  match handle_volume_str_parse uuid_hex config volumes with
  | Except.error e => Except.error e
  | Except.ok (vc, volumes2, used) =>
    match match_volumes_services_config service vc volumes2 with
    | Except.error e => Except.error e
    | Except.ok (service2, _vc2, volumes3) => Except.ok (service2, volumes3, used)

/-- keyisset("tmpfs", config) on a dict with an optional tmpfs key. -/
def tmpfs_is_set (tmpfs? : Option TmpfsV) : Bool :=
  match tmpfs? with
  | some v => v.truthy
  | none => false

/-- keyisset("type", config) on a dict with an optional type key (string
truthiness: non-empty). -/
def type_is_set (type? : Option String) : Bool :=
  match type? with
  | some t => !t.data.isEmpty
  | none => false

/-- is_tmpfs(config): keyisset("tmpfs", config) or (keyisset("type",
config) and config["type"] == "tmpfs"). -/
def is_tmpfs (type? : Option String) (tmpfs? : Option TmpfsV) : Bool :=
  tmpfs_is_set tmpfs? || (type_is_set type? && type?.getD "" = "tmpfs")

/-- volume_config.update(config): keys present in config overwrite the
corresponding entries of volume_config; missing keys leave it unchanged
(only the read_only default is present beforehand). -/
def dict_update (vc : VolConfig) (d : DictVol) : VolConfig :=
  { read_only := (match d.read_only? with | some b => b | none => vc.read_only),
    target? := (match d.target? with | some t => some t | none => vc.target?),
    source? := (match d.source? with | some s => some s | none => vc.source?),
    type? := (match d.type? with | some t => some t | none => vc.type?),
    tmpfs? := (match d.tmpfs? with | some v => some v | none => vc.tmpfs?),
    volume? := vc.volume? }

/-- handle_volume_dict_config(service, config, volumes): a non-tmpfs dict
must carry both a target and a source key (key presence, not truthiness);
the record is the update of the read_only default with the dict, and is
matched against the volumes unless it is tmpfs. -/
def handle_volume_dict_config (service : ComposeService) (config : DictVol)
    (volumes : List ComposeVolume) :
    Except PyErr (ComposeService × List ComposeVolume) :=
  if !(is_tmpfs config.type? config.tmpfs?) &&
     !(config.target?.isSome && config.source?.isSome) then
    Except.error (PyErr.keyError
      "Volume configuration, when not tmpfs, requires at least target, source")
  else
    let vc := dict_update { read_only := false } config
    if !(is_tmpfs vc.type? vc.tmpfs?) then
      match match_volumes_services_config service vc volumes with
      | Except.error e => Except.error e
      | Except.ok (service2, _, volumes2) => Except.ok (service2, volumes2)
    else
      Except.ok (service, volumes)

/-- The tmpfs test of the map_volumes loop:
isinstance(s_volume, dict) and (keyisset("type") and type == "tmpfs") or
keyisset("tmpfs").  By Python operator precedence this is
(isinstance and type-test) or keyisset("tmpfs"); both disjuncts are False
on a string entry (keyisset rejects non-dicts), and on a dict it agrees
with is_tmpfs. -/
def svolume_is_tmpfs_entry (sv : SVolume) : Bool :=
  match sv with
  | SVolume.dict d => (type_is_set d.type? && d.type?.getD "" = "tmpfs") || tmpfs_is_set d.tmpfs?
  | SVolume.str _ => false

/-- keyisset("target", s_volume) on a dict entry. -/
def dict_target_is_set (d : DictVol) : Bool :=
  match d.target? with
  | some t => !t.data.isEmpty
  | none => false

/-- The optional Size of a tmpfs mount spec: set iff keyisset("tmpfs",
s_volume), the tmpfs value is a dict, and keyisset("size", tmpfs) (an
integer size is truthy iff non-zero).  int() of the already-integral size
is the identity. -/
def tmpfs_size (d : DictVol) : Option Nat :=
  match d.tmpfs? with
  | some (TmpfsV.dict (some n) _) => if n ≠ 0 then some n else none
  | _ => none

/-- The loop body of map_volumes over service.definition["volumes"],
threading the service, the working volume list, and the index of the next
UUID to consume (uuids n is the hex digest of the n-th uuid4() call).
A tmpfs entry without a truthy target is a KeyError; a tmpfs entry with a
target is appended to service.tmpfses and bypasses matching.  Non-tmpfs
entries are skipped when the volume list is falsy (None or empty), and
otherwise dispatched on their type to the string or dict handler. -/
def map_volumes_go (uuids : Nat → String) :
    List SVolume → ComposeService → List ComposeVolume → Nat →
    Except PyErr (ComposeService × List ComposeVolume × Nat)
  | [], service, volumes, idx => Except.ok (service, volumes, idx)
  | sv :: rest, service, volumes, idx =>
    if svolume_is_tmpfs_entry sv then
      match sv with
      | SVolume.dict d =>
        if !(dict_target_is_set d) then
          Except.error (PyErr.keyError
            (service.name ++ ".volumes - When defining tmpfs as volume, you must define a target"))
        else
          let tmpfs_def : TmpfsDef := { ContainerPath := d.target?.getD "", Size? := tmpfs_size d }
          map_volumes_go uuids rest { service with tmpfses := service.tmpfses ++ [tmpfs_def] } volumes idx
      | SVolume.str _ => map_volumes_go uuids rest service volumes idx
    else
      if volumes.isEmpty then
        map_volumes_go uuids rest service volumes idx
      else
        match sv with
        | SVolume.str s =>
          match handle_volume_str_config (uuids idx) service s volumes with
          | Except.error e => Except.error e
          | Except.ok (service2, volumes2, used) =>
            map_volumes_go uuids rest service2 volumes2 (if used then idx + 1 else idx)
        | SVolume.dict d =>
          match handle_volume_dict_config service d volumes with
          | Except.error e => Except.error e
          | Except.ok (service2, volumes2) => map_volumes_go uuids rest service2 volumes2 idx

/-- map_volumes(service, volumes): iterate over the service's declared
volume entries (keyisset on the volumes key of the service definition
means an absent or empty entry list iterates zero times, which the empty
definition_volumes list models). -/
def map_volumes (uuids : Nat → String) (service : ComposeService)
    (volumes : List ComposeVolume) :
    Except PyErr (ComposeService × List ComposeVolume × Nat) :=
  map_volumes_go uuids service.definition_volumes service volumes 0

/-- The fields extracted by describe_stream at the fixed attribute paths
StreamDescription::StreamARN, StreamDescription::StreamName and
StreamDescription::KeyId.  KeyId is absent for unencrypted streams. -/
structure StreamDescriptionAttrs where
  StreamARN : String
  StreamName : String
  KeyId : Option String
  deriving DecidableEq

/-- The response of the kinesis describe_stream call: a dict with a
StreamDescription entry. -/
structure DescribeStreamResponse where
  desc : StreamDescriptionAttrs
  deriving DecidableEq

/-- The mapping returned by get_stream_config, keyed by the STREAM_ARN,
STREAM_ID and STREAM_KMS_KEY_ID parameters. -/
structure StreamConfigMapping where
  streamArn : String
  streamId : String
  kmsKeyId : Option String
  deriving DecidableEq

/-- Modelled from the spec: attributes_to_mapping (from compose_x_common,
not under src/) flattens the API response according to the static
path-based attribute map of get_stream_config, namely
STREAM_ARN from StreamDescription::StreamARN,
STREAM_ID from StreamDescription::StreamName and
STREAM_KMS_KEY_ID from StreamDescription::KeyId. -/
def attributes_to_mapping (r : DescribeStreamResponse) : StreamConfigMapping :=
  { streamArn := r.desc.StreamARN, streamId := r.desc.StreamName, kmsKeyId := r.desc.KeyId }

/-- Outcome of the blocking describe_stream call, the sole effect inside
get_stream_config's try block: a successful response, the service's
ResourceNotFoundException, or any other ClientError. -/
inductive DescribeOutcome where
  | success (r : DescribeStreamResponse)
  | resourceNotFound
  | clientError (msg : String)
  deriving DecidableEq

/-- get_stream_config(stream, account_id, resource_id): on success,
return the attribute mapping; on ResourceNotFoundException, return None;
on any other ClientError, log it and fall through, which also returns
None implicitly. -/
def get_stream_config (outcome : DescribeOutcome) : Option StreamConfigMapping :=
  match outcome with
  | DescribeOutcome.success r => some (attributes_to_mapping r)
  | DescribeOutcome.resourceNotFound => none
  | DescribeOutcome.clientError _ => none

/-- Modelled from the spec: a declared resource of one kind, as consumed
by the classification helpers of ecs_composex.compose.x_resources.helpers
(not under src/).  Per the spec, a declaration carries a Lookup or Use
marker (or neither) by whose presence the split is made. -/
structure XResourceDecl where
  name : String
  hasLookup : Bool
  hasUse : Bool
  deriving DecidableEq

/-- Modelled from the spec: set_lookup_resources selects the resources
carrying a Lookup marker. -/
def set_lookup_resources (rs : List XResourceDecl) : List XResourceDecl :=
  rs.filter (fun r => r.hasLookup)

/-- Modelled from the spec: set_use_resources selects the resources
carrying a Use marker; the spec describes the classification as a split
into disjoint buckets, so a Lookup marker takes precedence. -/
def set_use_resources (rs : List XResourceDecl) : List XResourceDecl :=
  rs.filter (fun r => !r.hasLookup && r.hasUse)

/-- Modelled from the spec: set_new_resources selects the resources
carrying neither marker (the ones to be created). -/
def set_new_resources (rs : List XResourceDecl) : List XResourceDecl :=
  rs.filter (fun r => !r.hasLookup && !r.hasUse)

/-- The classification performed in XStack.__init__ of kinesis_stack.py:
the declared resources of the kind are split by the three helpers. -/
def xstack_classification (rs : List XResourceDecl) :
    List XResourceDecl × List XResourceDecl × List XResourceDecl :=
  (set_new_resources rs, set_use_resources rs, set_lookup_resources rs)

/-- The global names bound in the module namespace of
cluster_template.py: the names introduced by its import statements plus
the two functions the module defines.  The name ecs_params is not among
them. -/
def cluster_template_module_bindings : List String :=
  ["Ref", "If", "GetAtt", "Stack", "Cluster", "formatted_outputs", "cluster_params",
   "cluster_conditions", "add_hosts_resources", "generate_spot_fleet_template",
   "DEFAULT_SPOT_CONFIG", "build_template", "KEYISSET", "LOG", "cfn_conditions",
   "ROOT_STACK_NAME", "ROOT_STACK_NAME_T", "upload_template", "vpc_params",
   "add_spotfleet_stack", "generate_cluster_template"]

/-- The global names referenced, in evaluation order, by the first
statement of generate_cluster_template (the build_template call): the
callee, then the modules referenced by each element of the parameter
list (cluster_params for CLUSTER_NAME, USE_FLEET, USE_ONDEMAND,
ECS_AMI_ID, TARGET_CAPACITY, MIN_CAPACITY, MAX_CAPACITY; vpc_params for
APP_SUBNETS and VPC_ID; then ecs_params for CLUSTER_NAME). -/
def generate_cluster_template_referenced_globals : List String :=
  ["build_template", "cluster_params", "cluster_params", "cluster_params", "cluster_params",
   "cluster_params", "cluster_params", "cluster_params", "vpc_params", "vpc_params",
   "ecs_params"]

/-- Python name resolution for a sequence of global name references:
the first name not bound in the environment raises NameError. -/
def eval_global_names (env : List String) : List String → Except PyErr Unit
  | [] => Except.ok ()
  | n :: rest =>
    if n ∈ env then eval_global_names env rest
    else Except.error (PyErr.nameError ("name " ++ single_quote ++ n ++ single_quote ++ " is not defined"))

/-- Stand-in for the value generate_cluster_template would return; the
construction after the parameter list is external troposphere glue and is
never reached. -/
structure ClusterTemplateResult where
  built : Bool
  deriving DecidableEq

/-- generate_cluster_template(region_azs, compose_content, kwargs): its
body first evaluates the parameter list passed to build_template, which
resolves each referenced global name against the module bindings; only
if that succeeds does template construction proceed. -/
def generate_cluster_template (_region_azs : List String)
    (_compose_content : Option Unit) : Except PyErr ClusterTemplateResult :=
  match eval_global_names cluster_template_module_bindings
      generate_cluster_template_referenced_globals with
  | Except.error e => Except.error e
  | Except.ok _ => Except.ok { built := true }

/-! Helper lemmas about takeWhile and dropWhile used to evaluate the
pattern match on abstract conforming inputs. -/

theorem takeWhile_append_stop {p : Char → Bool} (l : List Char) (c : Char) (r : List Char)
    (hl : ∀ x ∈ l, p x = true) (hc : p c = false) :
    List.takeWhile p (l ++ c :: r) = l := by
  induction l with
  | nil => simp [List.takeWhile_cons, hc]
  | cons a l ih =>
    have ha : p a = true := hl a (by simp)
    simp only [List.cons_append, List.takeWhile_cons, ha]
    simpa using ih (fun x hx => hl x (by simp [hx]))

theorem dropWhile_append_stop {p : Char → Bool} (l : List Char) (c : Char) (r : List Char)
    (hl : ∀ x ∈ l, p x = true) (hc : p c = false) :
    List.dropWhile p (l ++ c :: r) = c :: r := by
  induction l with
  | nil => simp [List.dropWhile_cons, hc]
  | cons a l ih =>
    have ha : p a = true := hl a (by simp)
    simp only [List.cons_append, List.dropWhile_cons, ha]
    simpa using ih (fun x hx => hl x (by simp [hx]))

theorem mem_of_mem_dropWhile {p : Char → Bool} (l : List Char) (x : Char)
    (h : x ∈ List.dropWhile p l) : x ∈ l := by
  induction l with
  | nil => exact absurd h (by simp [List.dropWhile])
  | cons a l ih =>
    by_cases ha : p a = true
    · simp only [List.dropWhile_cons, ha, if_true] at h
      exact List.mem_cons_of_mem a (ih h)
    · rw [List.dropWhile_cons, if_neg ha] at h
      exact h

/-! Evaluation of the embedded pattern match. -/

theorem matchTargetMode_none_of_no_slash (l : List Char) (h : '/' ∉ l) :
    matchTargetMode l = none := by
  cases l with
  | nil => rfl
  | cons c rest =>
    have hc : ¬(c = '/') := by
      intro e
      exact h (e ▸ List.mem_cons_self c rest)
    simp [matchTargetMode, hc]

theorem matchTargetMode_eq (t m : List Char) (ht : t ≠ [])
    (hall : ∀ c ∈ t, c ≠ ':' ∧ c ≠ '\n') :
    matchTargetMode ('/' :: (t ++ ':' :: m)) = some ('/' :: t, modeOf (':' :: m)) := by
  have hp : ∀ x ∈ t, target_char x = true := by
    intro x hx
    have := hall x hx
    simp [target_char, this.1, this.2]
  have hcolon : target_char ':' = false := by decide
  have h1 : List.takeWhile target_char (t ++ ':' :: m) = t :=
    takeWhile_append_stop t ':' m hp hcolon
  have h2 : List.dropWhile target_char (t ++ ':' :: m) = ':' :: m :=
    dropWhile_append_stop t ':' m hp hcolon
  simp [matchTargetMode, h1, h2, List.isEmpty_iff, ht]

theorem pathMatchList_none_of_no_slash (l : List Char) (h : '/' ∉ l) :
    pathMatchList l = none := by
  cases l with
  | nil => rfl
  | cons c0 rest =>
    have hns : matchTargetMode (c0 :: rest) = none := matchTargetMode_none_of_no_slash _ h
    by_cases hw : isPyWhitespace c0 = true
    · simp [pathMatchList, hw, hns]
    · cases hd : List.dropWhile not_colon rest with
      | nil => simp [pathMatchList, hw, hns, hd]
      | cons c2 rest3 =>
        by_cases hc2 : c2 = ':'
        · subst hc2
          have h3 : matchTargetMode rest3 = none := by
            apply matchTargetMode_none_of_no_slash
            intro hx
            apply h
            apply List.mem_cons_of_mem c0
            exact mem_of_mem_dropWhile rest '/' (hd ▸ List.mem_cons_of_mem ':' hx)
          simp [pathMatchList, hw, hns, hd, h3]
        · simp [pathMatchList, hw, hns, hd, hc2]

theorem pathMatchList_full (c0 : Char) (src t m : List Char)
    (hw : isPyWhitespace c0 = false) (hsrc : src ≠ []) (hsrcc : ∀ c ∈ src, c ≠ ':')
    (ht : t ≠ []) (htc : ∀ c ∈ t, c ≠ ':' ∧ c ≠ '\n') :
    pathMatchList (c0 :: (src ++ ':' :: '/' :: (t ++ ':' :: m))) =
      some (some (c0 :: src), '/' :: t, modeOf (':' :: m)) := by
  have hp : ∀ x ∈ src, not_colon x = true := by
    intro x hx
    simp [not_colon, hsrcc x hx]
  have hcolon : not_colon ':' = false := by decide
  have h1 : List.takeWhile not_colon (src ++ ':' :: ('/' :: (t ++ ':' :: m))) = src :=
    takeWhile_append_stop src ':' _ hp hcolon
  have h2 : List.dropWhile not_colon (src ++ ':' :: ('/' :: (t ++ ':' :: m))) =
      ':' :: ('/' :: (t ++ ':' :: m)) :=
    dropWhile_append_stop src ':' _ hp hcolon
  have h3 := matchTargetMode_eq t m ht htc
  simp [pathMatchList, hw, h1, h2, h3, List.isEmpty_iff, hsrc]

/-! Helper lemmas about the matching loop. -/

theorem keyissetSource_of_some {vc : VolConfig} {s : String}
    (hsrc : vc.source? = some s) (hne : s.data ≠ []) : keyissetSource vc = true := by
  simp [keyissetSource, hsrc, List.isEmpty_iff, hne]

theorem match_loop_found (sname : String) (vc : VolConfig) (s : String)
    (pre : List ComposeVolume) (v : ComposeVolume) (post : List ComposeVolume)
    (hsrc : vc.source? = some s) (hne : s.data ≠ [])
    (hpre : ∀ u ∈ pre, u.name ≠ s) (hv : v.name = s) :
    match_loop sname vc (pre ++ v :: post) =
      some (pre ++ { v with services := v.services ++ [sname] } :: post, v.name) := by
  have hks : keyissetSource vc = true := keyissetSource_of_some hsrc hne
  induction pre with
  | nil =>
    simp only [List.nil_append, match_loop, hks, keyisset_volume_on_compose_volume,
      Bool.not_true, Bool.not_false, Bool.false_and, Bool.false_eq_true, if_false]
    rw [if_pos]
    simp [hsrc, hv]
  | cons u pre ih =>
    have hu : u.name ≠ s := hpre u (by simp)
    have hrec := ih (fun x hx => hpre x (by simp [hx]))
    simp only [List.cons_append, match_loop, hks, keyisset_volume_on_compose_volume,
      Bool.not_true, Bool.not_false, Bool.false_and, Bool.false_eq_true, if_false]
    rw [if_neg (by simp [hsrc, hu])]
    simp [hrec]

theorem match_loop_no_match (sname : String) (vc : VolConfig) (s : String)
    (volumes : List ComposeVolume)
    (hsrc : vc.source? = some s) (hne : s.data ≠ [])
    (hall : ∀ u ∈ volumes, u.name ≠ s) :
    match_loop sname vc volumes = none := by
  have hks : keyissetSource vc = true := keyissetSource_of_some hsrc hne
  induction volumes with
  | nil => rfl
  | cons u rest ih =>
    have hu : u.name ≠ s := hall u (by simp)
    have hrec := ih (fun x hx => hall x (by simp [hx]))
    simp only [match_loop, hks, keyisset_volume_on_compose_volume,
      Bool.not_true, Bool.not_false, Bool.false_and, Bool.false_eq_true, if_false]
    rw [if_neg (by simp [hsrc, hu])]
    simp [hrec]

theorem match_loop_skips_all_without_source (sname : String) (vc : VolConfig)
    (volumes : List ComposeVolume) (hsrc : vc.source? = none) :
    match_loop sname vc volumes = none := by
  have hks : keyissetSource vc = false := by simp [keyissetSource, hsrc]
  induction volumes with
  | nil => rfl
  | cons u rest ih =>
    simp only [match_loop, hks, keyisset_volume_on_compose_volume,
      Bool.not_false, Bool.and_self, if_true]
    simp [ih]

/-! Concrete fixtures for the end-to-end conjuncts. -/

/-- The service of the C3 scenario: web with the single compact volume
string "/host/path:/data:ro". -/
def web_service : ComposeService :=
  { name := "web", definition_volumes := [SVolume.str "/host/path:/data:ro"] }

/-- An unrelated declared volume, so that the volume list handed to
map_volumes is truthy (map_volumes skips string entries entirely when the
working volume list is None or empty). -/
def other_volume : ComposeVolume := { name := "other" }

/-- The expected bind-mount attachment of the C3 scenario: mode ro is
recorded as read_only, and the volume key is set to None. -/
def web_bind_attachment : VolConfig :=
  { read_only := true, target? := some "/data", source? := some "/host/path",
    volume? := some none }

/-- C3: for every service and volume config whose source starts with "/",
match_volumes_services_config records a host bind mount: the attachment
gets volume = None, is appended to the service volume list, the candidate
volumes are returned unchanged (never scanned), and no error is raised;
and in the concrete scenario web: volumes: ["/host/path:/data:ro"], the
service ends with exactly one attachment with target /data, read_only
(mode ro) and volume None. -/
theorem claim_C3 :
    (∀ (service : ComposeService) (vc : VolConfig) (volumes : List ComposeVolume) (s : String),
      vc.source? = some s → startswith_slash s = true →
      match_volumes_services_config service vc volumes =
        Except.ok ({ service with volumes := service.volumes ++ [{ vc with volume? := some none }] },
                   { vc with volume? := some none }, volumes))
  ∧ map_volumes (fun _ => "") web_service [other_volume] =
      Except.ok ({ web_service with volumes := [web_bind_attachment] }, [other_volume], 0) := by
  constructor
  · intro service vc volumes s hsrc hslash
    have hne : s.data ≠ [] := by
      cases hdata : s.data with
      | nil => rw [startswith_slash, hdata] at hslash; exact absurd hslash (by simp)
      | cons c cs => simp
    have hks : keyissetSource vc = true := keyissetSource_of_some hsrc hne
    have hss : source_startswith_slash vc = true := by
      simp [source_startswith_slash, hsrc, hslash]
    simp [match_volumes_services_config, hks, hss]
  · decide

/-- C3 witness: the host-bind branch evaluated through the theorem at a
concrete service, config and volume list. -/
theorem claim_C3_witness :
    (({ read_only := true, target? := some "/data", source? := some "/x" } : VolConfig).source?
        = some "/x")
  ∧ startswith_slash "/x" = true
  ∧ match_volumes_services_config { name := "svc3" }
      { read_only := true, target? := some "/data", source? := some "/x" } [] =
      Except.ok ({ name := "svc3",
                   volumes := [{ read_only := true, target? := some "/data",
                                 source? := some "/x", volume? := some none }] },
                 { read_only := true, target? := some "/data", source? := some "/x",
                   volume? := some none }, []) := by
  refine ⟨rfl, by decide, ?_⟩
  have h := claim_C3.1 { name := "svc3" }
    { read_only := true, target? := some "/data", source? := some "/x" } [] "/x" rfl (by decide)
  simpa using h

/-- The service of the C4 scenario: app with the single compact volume
string "cache:/var/cache". -/
def app_service : ComposeService :=
  { name := "app", definition_volumes := [SVolume.str "cache:/var/cache"] }

/-- The top-level volume declaration cache: {} of the C4 scenario. -/
def cache_volume : ComposeVolume := { name := "cache" }

/-- The expected attachment of the C4 scenario, referencing the cache
volume. -/
def cache_attachment : VolConfig :=
  { read_only := false, target? := some "/var/cache", source? := some "cache",
    volume? := some (some "cache") }

/-- C4: for every service and volume config whose source does not start
with "/" and equals the name of a candidate volume (the first such, in
scan order), match_volumes_services_config links service and volume
bidirectionally: the service name is appended to the volume services
list, and the attachment (volume key referencing that volume) is appended
to the service volume list; and in the concrete scenario
volumes: {cache: {}}, app: volumes: ["cache:/var/cache"], the attachment
links app and cache both ways. -/
theorem claim_C4 :
    (∀ (service : ComposeService) (vc : VolConfig) (pre : List ComposeVolume)
       (v : ComposeVolume) (post : List ComposeVolume) (s : String),
      vc.source? = some s → s.data ≠ [] → startswith_slash s = false →
      (∀ u ∈ pre, u.name ≠ s) → v.name = s →
      match_volumes_services_config service vc (pre ++ v :: post) =
        Except.ok
          ({ service with volumes := service.volumes ++ [{ vc with volume? := some (some v.name) }] },
           { vc with volume? := some (some v.name) },
           pre ++ { v with services := v.services ++ [service.name] } :: post))
  ∧ map_volumes (fun _ => "") app_service [cache_volume] =
      Except.ok ({ app_service with volumes := [cache_attachment] },
                 [{ name := "cache", services := ["app"], autogenerated := false }], 0) := by
  constructor
  · intro service vc pre v post s hsrc hne hslash hpre hv
    have hss : source_startswith_slash vc = false := by
      simp [source_startswith_slash, hsrc, hslash]
    have hloop := match_loop_found service.name vc s pre v post hsrc hne hpre hv
    simp [match_volumes_services_config, hss, hloop]
  · decide

/-- C4 witness: the matching branch evaluated through the theorem at a
concrete service, config and candidate list. -/
theorem claim_C4_witness :
    (({ target? := some "/var/d", source? := some "dat" } : VolConfig).source?
        = some "dat")
  ∧ ("dat" : String).data ≠ [] ∧ startswith_slash "dat" = false
  ∧ match_volumes_services_config { name := "svc4" }
      { target? := some "/var/d", source? := some "dat" }
      ([] ++ ({ name := "dat" } : ComposeVolume) :: []) =
      Except.ok ({ name := "svc4",
                   volumes := [{ target? := some "/var/d", source? := some "dat",
                                 volume? := some (some "dat") }] },
                 { target? := some "/var/d", source? := some "dat",
                   volume? := some (some "dat") },
                 [{ name := "dat", services := ["svc4"] }]) := by
  refine ⟨rfl, by decide, by decide, ?_⟩
  have h := claim_C4.1 { name := "svc4" }
    { target? := some "/var/d", source? := some "dat" } [] { name := "dat" } [] "dat"
    rfl (by decide) (by decide) (by intro u hu; exact absurd hu (by simp)) rfl
  simpa using h

/-- C7: for every service and volume config whose source is set, does not
start with "/", and matches no candidate volume name, the function raises
LookupError with a message enumerating every known candidate volume name;
its result carries no updated state (the service volume list and every
candidate volume are untouched). -/
theorem claim_C7 (service : ComposeService) (vc : VolConfig)
    (volumes : List ComposeVolume) (s : String)
    (hsrc : vc.source? = some s) (hne : s.data ≠ [])
    (hslash : startswith_slash s = false)
    (hall : ∀ u ∈ volumes, u.name ≠ s) :
    match_volumes_services_config service vc volumes =
      Except.error (PyErr.lookupError
        ("Volume " ++ s ++ " was not found in "
          ++ pyReprStrList (volumes.map (fun v => v.name)))) := by
  have hss : source_startswith_slash vc = false := by
    simp [source_startswith_slash, hsrc, hslash]
  have hloop := match_loop_no_match service.name vc s volumes hsrc hne hall
  simp [match_volumes_services_config, hss, hloop, hsrc, lookup_error_msg]

/-- C7 witness: the LookupError branch evaluated through the theorem at a
concrete input; the message enumerates both candidate names. -/
theorem claim_C7_witness :
    (({ source? := some "zz" } : VolConfig).source? = some "zz")
  ∧ ("zz" : String).data ≠ [] ∧ startswith_slash "zz" = false
  ∧ match_volumes_services_config { name := "svc7" } { source? := some "zz" }
      [{ name := "aa" }, { name := "bb" }] =
      Except.error (PyErr.lookupError
        ("Volume " ++ "zz" ++ " was not found in "
          ++ pyReprStrList ["aa", "bb"])) := by
  refine ⟨rfl, by decide, by decide, ?_⟩
  have h := claim_C7 { name := "svc7" } { source? := some "zz" }
    [{ name := "aa" }, { name := "bb" }] "zz" rfl (by decide) (by decide) (by decide)
  simpa using h

/-- C9: for every service, candidate volume list and volume config with
no source key, match_volumes_services_config raises KeyError("source")
rather than succeeding or raising the documented LookupError: the
continue guard skips every candidate (keyisset("volume", volume) on a
ComposeVolume object is always False), and the final raise dereferences
the missing source key while building its message. -/
theorem claim_C9 (service : ComposeService) (vc : VolConfig)
    (volumes : List ComposeVolume) (hsrc : vc.source? = none) :
    match_volumes_services_config service vc volumes =
      Except.error (PyErr.keyError "source") := by
  have hks : keyissetSource vc = false := by simp [keyissetSource, hsrc]
  have hloop := match_loop_skips_all_without_source service.name vc volumes hsrc
  simp [match_volumes_services_config, hks, hloop, hsrc]

/-- C9 witness: the KeyError branch evaluated through the theorem on a
config without a source key, over a non-empty candidate list. -/
theorem claim_C9_witness :
    (({ target? := some "/data" } : VolConfig).source? = none)
  ∧ match_volumes_services_config { name := "svc9" } { target? := some "/data" }
      [{ name := "aa" }] = Except.error (PyErr.keyError "source") :=
  ⟨rfl, claim_C9 { name := "svc9" } { target? := some "/data" } [{ name := "aa" }] rfl⟩

/-- C1 (amended): a compact volume string source:target:mode whose source
has at least two characters (a non-whitespace character followed by one
or more non-colon characters) and whose target is an absolute path free
of colon and newline parses, for mode ro or rw, into a record holding
exactly that source and target with read_only set iff mode is ro (the
record has no separate mode key); and every string containing no slash at
all (in particular every string missing a target) is rejected with
ValueError.  The claim as frozen fails in both directions: a
one-character source is rejected, and a matching prefix with trailing
garbage is accepted (see the counterexample). -/
theorem claim_C1 :
    (∀ (uuid_hex : String) (volumes : List ComposeVolume) (c0 : Char)
       (src t : List Char) (mode : String),
      isPyWhitespace c0 = false → src ≠ [] → (∀ c ∈ src, c ≠ ':') →
      t ≠ [] → (∀ c ∈ t, c ≠ ':' ∧ c ≠ '\n') →
      (mode = "ro" ∨ mode = "rw") →
      handle_volume_str_parse uuid_hex
          (String.mk (c0 :: (src ++ ':' :: '/' :: (t ++ ':' :: mode.data)))) volumes =
        Except.ok ({ read_only := if mode = "ro" then true else false,
                     target? := some (String.mk ('/' :: t)),
                     source? := some (String.mk (c0 :: src)) }, volumes, false))
  ∧ (∀ (uuid_hex config : String) (volumes : List ComposeVolume),
      '/' ∉ config.data →
      handle_volume_str_parse uuid_hex config volumes =
        Except.error (PyErr.valueError
          ("Volume syntax " ++ config ++ " is invalid. Must follow the pattern"))) := by
  constructor
  · intro uuid_hex volumes c0 src t mode hw hsrc hsrcc ht htc hm
    have hpm := pathMatchList_full c0 src t mode.data hw hsrc hsrcc ht htc
    rcases hm with h | h <;> subst h
    · have hmo : modeOf (':' :: ("ro" : String).data) = some "ro" := rfl
      rw [hmo] at hpm
      simp [handle_volume_str_parse, hpm]
    · have hmo : modeOf (':' :: ("rw" : String).data) = some "rw" := rfl
      rw [hmo] at hpm
      simp [handle_volume_str_parse, hpm]
  · intro uuid_hex config volumes h
    have hpm := pathMatchList_none_of_no_slash config.data h
    simp [handle_volume_str_parse, hpm]

/-- C1 counterexample to the claim as frozen: the grammar-conforming full
form a:/data:ro (one-character source) is rejected with ValueError, and
conversely the non-conforming string /a:xyz (xyz is neither an absolute
target nor a valid mode) is not rejected: the match stops after /a and
the parser proceeds, creating an anonymous volume. -/
theorem claim_C1_counterexample :
    handle_volume_str_parse "" "a:/data:ro" [] =
      Except.error (PyErr.valueError
        "Volume syntax a:/data:ro is invalid. Must follow the pattern")
  ∧ handle_volume_str_parse "ffffffffffffffffffffffffffffffff" "/a:xyz" [] =
      Except.ok ({ read_only := false, target? := some "/a", source? := some "ffffff",
                   volume? := some (some "ffffff") },
                 [{ name := "ffffff", services := [], autogenerated := true }], true) := by
  exact ⟨by decide, by decide⟩

/-- C1 witness: the amended theorem evaluated at the conforming string
db:/data:ro and at the targetless string nodata. -/
theorem claim_C1_witness :
    isPyWhitespace 'd' = false
  ∧ handle_volume_str_parse "x"
      (String.mk ('d' :: (['b'] ++ ':' :: '/' :: (['d', 'a', 't', 'a'] ++ ':' :: ("ro" : String).data)))) [] =
      Except.ok ({ read_only := if ("ro" : String) = "ro" then true else false,
                   target? := some (String.mk ('/' :: ['d', 'a', 't', 'a'])),
                   source? := some (String.mk ('d' :: ['b'])) }, [], false)
  ∧ handle_volume_str_parse "x" "nodata" [] =
      Except.error (PyErr.valueError
        ("Volume syntax " ++ "nodata" ++ " is invalid. Must follow the pattern")) :=
  ⟨by decide,
   claim_C1.1 "x" [] 'd' ['b'] ['d', 'a', 't', 'a'] "ro"
     (by decide) (by decide) (by decide) (by decide) (by decide) (Or.inl rfl),
   claim_C1.2 "x" "nodata" [] (by decide)⟩

/-- C5: for every volume string conforming to the grammar with the source
group omitted, handle_volume_str_config creates a new volume named by the
first six characters of the UUID hex digest (length six, the digest
having 32 characters), marks it autogenerated, appends it to the working
volume set, and attaches the service to it: the attachment record's
source is the generated name and its volume key references the new
volume.  The digest is an explicit argument with the properties uuid4
guarantees (32 hex characters, hence no slash, and fresh with respect to
the declared volume names). -/
theorem claim_C5 (uuid_hex : String) (service : ComposeService)
    (volumes : List ComposeVolume) (config : String) (tgt : List Char)
    (mode? : Option String)
    (hparse : pathMatchList config.data = some (none, tgt, mode?))
    (hlen : uuid_hex.data.length = 32)
    (hhex : '/' ∉ uuid_hex.data)
    (hfresh : ∀ v ∈ volumes, v.name ≠ gen_volume_name uuid_hex) :
    (gen_volume_name uuid_hex).length = 6
  ∧ handle_volume_str_config uuid_hex service config volumes =
      Except.ok
        ({ service with volumes := service.volumes ++
            [{ read_only := if mode? = some "ro" then true else false,
               target? := some (String.mk tgt),
               source? := some (gen_volume_name uuid_hex),
               volume? := some (some (gen_volume_name uuid_hex)) }] },
         volumes ++ [{ name := gen_volume_name uuid_hex,
                       services := [service.name], autogenerated := true }],
         true) := by
  have hd : (gen_volume_name uuid_hex).data = uuid_hex.data.take 6 := rfl
  have hlen6 : (gen_volume_name uuid_hex).data.length = 6 := by
    rw [hd, List.length_take, hlen]
    decide
  have hne : (gen_volume_name uuid_hex).data ≠ [] := by
    intro h
    rw [h] at hlen6
    exact absurd hlen6 (by simp)
  have hsl : startswith_slash (gen_volume_name uuid_hex) = false := by
    cases hcase : (gen_volume_name uuid_hex).data with
    | nil => simp [startswith_slash, hcase]
    | cons c cs =>
      have hc : c ∈ uuid_hex.data := by
        apply List.take_subset 6
        rw [← hd, hcase]
        exact List.mem_cons_self c cs
      have hcne : ¬(c = '/') := fun e => hhex (e ▸ hc)
      simp [startswith_slash, hcase, hcne]
  refine ⟨hlen6, ?_⟩
  by_cases hmode : mode? = some "ro"
  · subst hmode
    have h1 : handle_volume_str_parse uuid_hex config volumes =
        Except.ok ({ read_only := true, target? := some (String.mk tgt),
                     source? := some (gen_volume_name uuid_hex),
                     volume? := some (some (gen_volume_name uuid_hex)) },
                   volumes ++ [{ name := gen_volume_name uuid_hex, services := [],
                                 autogenerated := true }], true) := by
      simp [handle_volume_str_parse, hparse]
    have hks : keyissetSource
        ({ read_only := true, target? := some (String.mk tgt),
           source? := some (gen_volume_name uuid_hex),
           volume? := some (some (gen_volume_name uuid_hex)) } : VolConfig) = true :=
      keyissetSource_of_some rfl hne
    have hss : source_startswith_slash
        ({ read_only := true, target? := some (String.mk tgt),
           source? := some (gen_volume_name uuid_hex),
           volume? := some (some (gen_volume_name uuid_hex)) } : VolConfig) = false := by
      simp [source_startswith_slash, hsl]
    have hloop := match_loop_found service.name
      { read_only := true, target? := some (String.mk tgt),
        source? := some (gen_volume_name uuid_hex),
        volume? := some (some (gen_volume_name uuid_hex)) }
      (gen_volume_name uuid_hex) volumes
      { name := gen_volume_name uuid_hex, services := [], autogenerated := true } []
      rfl hne hfresh rfl
    simp [handle_volume_str_config, h1, match_volumes_services_config, hks, hss, hloop]
  · have h1 : handle_volume_str_parse uuid_hex config volumes =
        Except.ok ({ read_only := false, target? := some (String.mk tgt),
                     source? := some (gen_volume_name uuid_hex),
                     volume? := some (some (gen_volume_name uuid_hex)) },
                   volumes ++ [{ name := gen_volume_name uuid_hex, services := [],
                                 autogenerated := true }], true) := by
      simp [handle_volume_str_parse, hparse, hmode]
    have hks : keyissetSource
        ({ read_only := false, target? := some (String.mk tgt),
           source? := some (gen_volume_name uuid_hex),
           volume? := some (some (gen_volume_name uuid_hex)) } : VolConfig) = true :=
      keyissetSource_of_some rfl hne
    have hss : source_startswith_slash
        ({ read_only := false, target? := some (String.mk tgt),
           source? := some (gen_volume_name uuid_hex),
           volume? := some (some (gen_volume_name uuid_hex)) } : VolConfig) = false := by
      simp [source_startswith_slash, hsl]
    have hloop := match_loop_found service.name
      { read_only := false, target? := some (String.mk tgt),
        source? := some (gen_volume_name uuid_hex),
        volume? := some (some (gen_volume_name uuid_hex)) }
      (gen_volume_name uuid_hex) volumes
      { name := gen_volume_name uuid_hex, services := [], autogenerated := true } []
      rfl hne hfresh rfl
    simp [handle_volume_str_config, h1, match_volumes_services_config, hks, hss, hloop, hmode]

/-- C5 witness: the theorem evaluated at a fixed 32-character hex digest
and the sourceless volume string /var/log over an empty volume set. -/
theorem claim_C5_witness :
    pathMatchList ("/var/log" : String).data = some (none, ("/var/log" : String).data, none)
  ∧ ("0123456789abcdef0123456789abcdef" : String).data.length = 32
  ∧ ((gen_volume_name "0123456789abcdef0123456789abcdef").length = 6
     ∧ handle_volume_str_config "0123456789abcdef0123456789abcdef" { name := "log" }
         "/var/log" [] =
         Except.ok
           ({ name := "log", volumes :=
               [{ read_only := if (none : Option String) = some "ro" then true else false,
                  target? := some (String.mk ("/var/log" : String).data),
                  source? := some (gen_volume_name "0123456789abcdef0123456789abcdef"),
                  volume? := some (some (gen_volume_name "0123456789abcdef0123456789abcdef")) }] },
            [{ name := gen_volume_name "0123456789abcdef0123456789abcdef",
               services := ["log"], autogenerated := true }],
            true)) :=
  ⟨by decide, by decide,
   by
     have h := claim_C5 "0123456789abcdef0123456789abcdef" { name := "log" } [] "/var/log"
       ("/var/log" : String).data none (by decide) (by decide) (by decide)
       (fun v hv => absurd hv (by simp))
     simpa using h⟩

/-- C6 (amended): for every dict-form service volume entry identified as
tmpfs, map_volumes raises KeyError when the target key is absent or its
value is empty (the code tests the key with keyisset, i.e. presence and
truthiness); when a non-empty target is present the tmpfs mount bypasses
volume matching entirely and is recorded as a container-level mount spec
on the service, with ContainerPath the target and integer Size taken from
tmpfs.size when that key is set (per the same test, present and
non-zero); the working volume set is untouched.  The claim as frozen says
a present target suffices, which fails on an empty target (see the
counterexample). -/
theorem claim_C6 (uuids : Nat → String) (service : ComposeService)
    (volumes : List ComposeVolume) (d : DictVol)
    (hdef : service.definition_volumes = [SVolume.dict d])
    (htmp : svolume_is_tmpfs_entry (SVolume.dict d) = true) :
    ((d.target? = none ∨ d.target? = some "") →
      map_volumes uuids service volumes =
        Except.error (PyErr.keyError
          (service.name ++ ".volumes - When defining tmpfs as volume, you must define a target")))
  ∧ (∀ t : String, d.target? = some t → t.data ≠ [] →
      map_volumes uuids service volumes =
        Except.ok ({ service with tmpfses := service.tmpfses ++
            [{ ContainerPath := t, Size? := tmpfs_size d }] }, volumes, 0)) := by
  constructor
  · intro htgt
    have hts : dict_target_is_set d = false := by
      rcases htgt with h | h <;> simp [dict_target_is_set, h]
    simp [map_volumes, hdef, map_volumes_go, htmp, hts]
  · intro t ht hne
    have hts : dict_target_is_set d = true := by
      simp [dict_target_is_set, ht, List.isEmpty_iff, hne]
    simp [map_volumes, hdef, map_volumes_go, htmp, hts, ht]

/-- C6 counterexample to the claim as frozen: a tmpfs dict entry whose
target key is present but empty is not recorded as a mount spec; it
raises the KeyError reserved for a missing target. -/
theorem claim_C6_counterexample :
    map_volumes (fun _ => "")
      { name := "svc", definition_volumes := [SVolume.dict { type? := some "tmpfs", target? := some "" }] }
      [] =
      Except.error (PyErr.keyError
        "svc.volumes - When defining tmpfs as volume, you must define a target") := by
  decide

/-- C6 witness: the amended theorem evaluated on a tmpfs entry without a
target (KeyError) and on one with a non-empty target and a sized tmpfs
dict (recorded mount spec with Size). -/
theorem claim_C6_witness :
    map_volumes (fun _ => "")
      { name := "s6a", definition_volumes := [SVolume.dict { type? := some "tmpfs" }] } [] =
      Except.error (PyErr.keyError
        "s6a.volumes - When defining tmpfs as volume, you must define a target")
  ∧ map_volumes (fun _ => "")
      { name := "s6b", definition_volumes :=
          [SVolume.dict { tmpfs? := some (TmpfsV.dict (some 100) false), target? := some "/tmpd" }] }
      [] =
      Except.ok
        ({ name := "s6b", definition_volumes :=
             [SVolume.dict { tmpfs? := some (TmpfsV.dict (some 100) false), target? := some "/tmpd" }],
           tmpfses := [{ ContainerPath := "/tmpd",
                         Size? := tmpfs_size { tmpfs? := some (TmpfsV.dict (some 100) false),
                                               target? := some "/tmpd" } }] },
         [], 0) := by
  constructor
  · exact (claim_C6 (fun _ => "")
      { name := "s6a", definition_volumes := [SVolume.dict { type? := some "tmpfs" }] } []
      { type? := some "tmpfs" } rfl (by decide)).1 (Or.inl rfl)
  · have h := (claim_C6 (fun _ => "")
      { name := "s6b", definition_volumes :=
          [SVolume.dict { tmpfs? := some (TmpfsV.dict (some 100) false), target? := some "/tmpd" }] }
      []
      { tmpfs? := some (TmpfsV.dict (some 100) false), target? := some "/tmpd" }
      rfl (by decide)).2 "/tmpd" rfl (by decide)
    simpa using h

/-- C2: for every declared resource set of one kind, the classification
of XStack.__init__ via set_new_resources, set_use_resources and
set_lookup_resources is a partition: every declared resource falls in at
least one bucket, the buckets are pairwise disjoint, each bucket only
contains declared resources, and the bucket sizes add up to the declared
set's size. -/
theorem claim_C2 (rs : List XResourceDecl) :
    (∀ r ∈ rs, r ∈ set_new_resources rs ∨ r ∈ set_use_resources rs ∨ r ∈ set_lookup_resources rs)
  ∧ (∀ r : XResourceDecl,
      ¬(r ∈ set_new_resources rs ∧ r ∈ set_use_resources rs)
      ∧ ¬(r ∈ set_new_resources rs ∧ r ∈ set_lookup_resources rs)
      ∧ ¬(r ∈ set_use_resources rs ∧ r ∈ set_lookup_resources rs))
  ∧ (∀ r ∈ set_new_resources rs, r ∈ rs)
  ∧ (∀ r ∈ set_use_resources rs, r ∈ rs)
  ∧ (∀ r ∈ set_lookup_resources rs, r ∈ rs)
  ∧ (set_new_resources rs).length + (set_use_resources rs).length
      + (set_lookup_resources rs).length = rs.length := by
  refine ⟨?_, ?_, ?_, ?_, ?_, ?_⟩
  · intro r hr
    by_cases hl : r.hasLookup = true
    · right; right; simp [set_lookup_resources, List.mem_filter, hr, hl]
    · by_cases hu : r.hasUse = true
      · right; left
        simp only [Bool.not_eq_true] at hl
        simp [set_use_resources, List.mem_filter, hr, hl, hu]
      · left
        simp only [Bool.not_eq_true] at hl hu
        simp [set_new_resources, List.mem_filter, hr, hl, hu]
  · intro r
    refine ⟨?_, ?_, ?_⟩ <;> rintro ⟨h1, h2⟩ <;>
      simp only [set_new_resources, set_use_resources, set_lookup_resources,
        List.mem_filter, Bool.and_eq_true, Bool.not_eq_true'] at h1 h2 <;>
      simp_all
  · intro r hr
    exact (List.mem_filter.mp hr).1
  · intro r hr
    exact (List.mem_filter.mp hr).1
  · intro r hr
    exact (List.mem_filter.mp hr).1
  · induction rs with
    | nil => rfl
    | cons r rs ih =>
      by_cases hl : r.hasLookup = true <;> by_cases hu : r.hasUse = true <;>
        simp only [set_new_resources, set_use_resources, set_lookup_resources,
          List.filter_cons, hl, hu, Bool.not_true, Bool.not_false, Bool.and_self,
          Bool.false_and, Bool.true_and, Bool.and_false, Bool.and_true,
          Bool.not_eq_true] at ih ⊢ <;>
        simp_all <;> omega
  
/-- C2 witness: the partition evaluated on a three-element declared set
exercising all three buckets. -/
theorem claim_C2_witness :
    (({ name := "a", hasLookup := true, hasUse := false } : XResourceDecl)
        ∈ set_lookup_resources
          [{ name := "a", hasLookup := true, hasUse := false },
           { name := "b", hasLookup := false, hasUse := true },
           { name := "c", hasLookup := false, hasUse := false }]
      ∨ ({ name := "a", hasLookup := true, hasUse := false } : XResourceDecl)
        ∈ set_new_resources
          [{ name := "a", hasLookup := true, hasUse := false },
           { name := "b", hasLookup := false, hasUse := true },
           { name := "c", hasLookup := false, hasUse := false }])
  ∧ (set_new_resources
        [({ name := "a", hasLookup := true, hasUse := false } : XResourceDecl),
         { name := "b", hasLookup := false, hasUse := true },
         { name := "c", hasLookup := false, hasUse := false }]).length
    + (set_use_resources
        [({ name := "a", hasLookup := true, hasUse := false } : XResourceDecl),
         { name := "b", hasLookup := false, hasUse := true },
         { name := "c", hasLookup := false, hasUse := false }]).length
    + (set_lookup_resources
        [({ name := "a", hasLookup := true, hasUse := false } : XResourceDecl),
         { name := "b", hasLookup := false, hasUse := true },
         { name := "c", hasLookup := false, hasUse := false }]).length = 3 := by
  constructor
  · have h := (claim_C2
      [{ name := "a", hasLookup := true, hasUse := false },
       { name := "b", hasLookup := false, hasUse := true },
       { name := "c", hasLookup := false, hasUse := false }]).1
      { name := "a", hasLookup := true, hasUse := false } (by simp)
    rcases h with h | h | h
    · exact Or.inr h
    · exact absurd h (by decide)
    · exact Or.inl h
  · exact (claim_C2
      [{ name := "a", hasLookup := true, hasUse := false },
       { name := "b", hasLookup := false, hasUse := true },
       { name := "c", hasLookup := false, hasUse := false }]).2.2.2.2.2

/-- C8: a stream lookup whose describe call reports
ResourceNotFoundException returns no mapping (None) without raising, and
a successful describe call returns exactly the mapping extracted at the
fixed attribute paths StreamDescription::StreamARN,
StreamDescription::StreamName and StreamDescription::KeyId. -/
theorem claim_C8 :
    get_stream_config DescribeOutcome.resourceNotFound = none
  ∧ (∀ r : DescribeStreamResponse,
      get_stream_config (DescribeOutcome.success r) =
        some { streamArn := r.desc.StreamARN, streamId := r.desc.StreamName,
               kmsKeyId := r.desc.KeyId }) :=
  ⟨rfl, fun _ => rfl⟩

/-- C10: generate_cluster_template fails with NameError on every input
before producing any template: evaluation of its parameter list resolves
the global name ecs_params, which no import of cluster_template.py ever
binds. -/
theorem claim_C10 (region_azs : List String) (compose_content : Option Unit) :
    generate_cluster_template region_azs compose_content =
      Except.error (PyErr.nameError
        ("name " ++ single_quote ++ "ecs_params" ++ single_quote ++ " is not defined")) := by
  rfl
